import Mathlib

/-
  Verification development for the fleet monitoring program (collect.py).
  The per-host sampler, fleet collection loop, config resolver and report
  exporter are embedded as executable Lean definitions; remote command
  execution is abstracted as per-command text outcomes supplied in a
  `ShellEnv`, and the Python numeric types are modelled with ℚ and ℤ.
-/

namespace Monitor

/-- Model of Python `str.strip()`: drop whitespace from both ends. -/
def pyStrip (s : String) : String :=
  ⟨List.reverse (List.dropWhile Char.isWhitespace
      (List.reverse (List.dropWhile Char.isWhitespace s.data)))⟩

/-- Helper for `pySplit`: walk the characters, accumulating the current
word (reversed); whitespace runs separate words and produce no empties. -/
def splitWsAux : List Char → List Char → List String
  | [], acc => if acc.isEmpty then [] else [⟨acc.reverse⟩]
  | c :: cs, acc =>
    if c.isWhitespace then
      (if acc.isEmpty then splitWsAux cs [] else ⟨acc.reverse⟩ :: splitWsAux cs [])
    else splitWsAux cs (c :: acc)

/-- Model of Python `str.split()` with no argument: split on runs of
whitespace and discard empty pieces. -/
def pySplit (s : String) : List String := splitWsAux s.data []

/-- Decimal digits to a natural number. -/
def digitsToNat (cs : List Char) : Nat :=
  cs.foldl (fun n c => n * 10 + (c.toNat - 48)) 0

/-- Nonempty all-digit character list. -/
def isDigits (cs : List Char) : Bool := !cs.isEmpty && cs.all Char.isDigit

/-- Model of Python `int(s)` on an already-stripped string: optional sign
followed by one or more digits, `none` on anything else (ValueError). -/
def pyInt (s : String) : Option Int :=
  match s.data with
  | '-' :: rest => if isDigits rest then some (-(digitsToNat rest : Int)) else none
  | '+' :: rest => if isDigits rest then some (digitsToNat rest : Int) else none
  | cs => if isDigits cs then some (digitsToNat cs : Int) else none

/-- Core of `pyFloat`: digits with an optional fractional part, at least one
digit overall. -/
def pyFloatCore (cs : List Char) : Option ℚ :=
  match cs.span Char.isDigit with
  | (intPart, []) =>
      if intPart.isEmpty then none else some (digitsToNat intPart : ℚ)
  | (intPart, '.' :: fracPart) =>
      if (!intPart.isEmpty || !fracPart.isEmpty) && fracPart.all Char.isDigit then
        some ((digitsToNat intPart : ℚ)
          + (digitsToNat fracPart : ℚ) / (10 : ℚ) ^ fracPart.length)
      else none
  | _ => none

/-- Model of Python `float(s)` on an already-stripped string, restricted to
the plain decimal forms used by the command outputs: optional sign,
digits, optional `.` and digits; `none` on anything else (ValueError). -/
def pyFloat (s : String) : Option ℚ :=
  match s.data with
  | '-' :: rest => (pyFloatCore rest).map Neg.neg
  | '+' :: rest => pyFloatCore rest
  | cs => pyFloatCore cs

/-- Round to the nearest integer, ties to even, as Python `round` does
on exact values. -/
def roundHalfEven (q : ℚ) : ℤ :=
  let f := q.floor
  let r := q - (f : ℚ)
  if r < 1 / 2 then f
  else if 1 / 2 < r then f + 1
  else if f % 2 = 0 then f else f + 1

/-- Model of Python `round(q, 2)`. -/
def round2 (q : ℚ) : ℚ := (roundHalfEven (q * 100) : ℚ) / 100

/-- Model of Python `max(l)` on ℚ lists (`0` stands in for the empty case,
which the program guards against, matching `max(gen, default=0)`). -/
def listMax : List ℚ → ℚ
  | [] => 0
  | x :: xs => xs.foldl max x

/-- Model of Python `min(l)` on ℚ lists (`0` stands in for the empty case,
matching `min(gen, default=0)`). -/
def listMin : List ℚ → ℚ
  | [] => 0
  | x :: xs => xs.foldl min x

/-! ## Data model -/

/-- A resolved per-host connection descriptor (spec: HostDescriptor). -/
structure HostDescriptor where
  host : String
  username : String
  password : String
  port : Int
deriving DecidableEq

/-- One per-host override record from the `servers:` list of the config
file; `none` models an absent key. -/
structure ServerRecord where
  host : Option String
  username : Option String
  password : Option String
  port : Option Int
deriving DecidableEq

/-- The `default_credentials:` mapping of the config file; `none` models an
absent key. -/
structure DefaultCreds where
  username : Option String
  password : Option String
  port : Option Int
deriving DecidableEq

/-- A parsed configuration file. -/
structure Config where
  default_credentials : DefaultCreds
  servers : List ServerRecord
deriving DecidableEq

/-- The one fatal configuration error: a server record without `host`
(the Python code raises KeyError when indexing the host key). -/
inductive ConfigError where
  | missingHost
deriving DecidableEq

/-- The success-variant payload of a per-host sampling (the dict returned
at lines 152-173 of collect.py; `status` is the fixed text "success"). -/
structure SuccessMetrics where
  host : String
  cpu_cores : Int
  cpu_usage_avg : ℚ
  cpu_usage_max : ℚ
  cpu_usage_min : ℚ
  memory_total_gb : ℚ
  memory_used_gb : ℚ
  memory_free_gb : ℚ
  memory_usage : ℚ
  network_rx_kb_avg : ℚ
  network_rx_kb_max : ℚ
  network_rx_kb_min : ℚ
  network_tx_kb_avg : ℚ
  network_tx_kb_max : ℚ
  network_tx_kb_min : ℚ
  disk_total_gb : ℚ
  disk_used_gb : ℚ
  disk_free_gb : ℚ
  timestamp : String
deriving DecidableEq

/-- The tagged result of sampling one host: either the success variant or
the failure variant carrying host, timestamp and the error text `e`
(whose reported status is the string "error: " followed by `e`). -/
inductive HostMetrics where
  | success (m : SuccessMetrics)
  | failure (host timestamp errText : String)
deriving DecidableEq

/-- The `status` field of the returned dict. -/
def statusOf : HostMetrics → String
  | .success _ => "success"
  | .failure _ _ e => "error: " ++ e

/-- The `host` field of the returned dict. -/
def hostOf : HostMetrics → String
  | .success m => m.host
  | .failure h _ _ => h

/-- The `timestamp` field of the returned dict. -/
def timestampOf : HostMetrics → String
  | .success m => m.timestamp
  | .failure _ t _ => t

/-- Whether a HostMetrics is the failure variant. -/
def isFailure : HostMetrics → Bool
  | .success _ => false
  | .failure _ _ _ => true

/-- Whether a HostMetrics is the success variant. -/
def isSuccess : HostMetrics → Bool
  | .success _ => true
  | .failure _ _ _ => false

/-- The outcomes of the remote commands run while sampling one host.
Each field is the text a command produced, or `Except.error` when running
it raised; `netOut`/`diskOut` give the `readlines()` results. -/
structure ShellEnv where
  nprocOut : Except String String
  cpuPrimaryOut : Fin 3 → Except String String
  cpuFallbackOut : Fin 3 → Except String String
  memOut : Except String String
  netOut : Except String (List String)
  diskOut : Except String (List String)

/-! ## Metric sampler (collect.py lines 61-181) -/

/-- The core-count step (line 77), int of the stripped output with an
empty output replaced by the text 1; a non-empty output that int cannot parse
raises (ValueError), modelled as `Except.error`. -/
def parseCoreCount (out : String) : Except String Int :=
  let s := pyStrip out
  if s = "" then Except.ok 1
  else
    match pyInt s with
    | some n => Except.ok n
    | none => Except.error ("invalid literal for int() with base 10: " ++ s)

/-- One repeat of the CPU utilization loop (lines 82-94): use the primary
output when its stripped text is nonempty, else fall back to the secondary
command with `or Zero` defaulting; a parse failure is caught and recorded
as 0.0 for this repeat.  A raised command execution propagates. -/
def cpuSample (prim fb : Except String String) : Except String ℚ := do
  let out ← prim
  let o := pyStrip out
  if o ≠ "" then
    match pyFloat o with
    | some v => pure v
    | none => pure 0
  else
    let fout ← fb
    let fo := pyStrip fout
    match pyFloat (if fo = "" then "0" else fo) with
    | some v => pure v
    | none => pure 0

/-- The three-repeat CPU sampling loop (lines 80-95). -/
def cpuLoop (env : ShellEnv) : Except String (List ℚ) := do
  let s0 ← cpuSample (env.cpuPrimaryOut 0) (env.cpuFallbackOut 0)
  let s1 ← cpuSample (env.cpuPrimaryOut 1) (env.cpuFallbackOut 1)
  let s2 ← cpuSample (env.cpuPrimaryOut 2) (env.cpuFallbackOut 2)
  pure [s0, s1, s2]

/-- The parse of the memory step (lines 101-106): split into exactly three
floats for total/used/free; usage is `round(used/total*100, 2)` guarded by
`total > 0`; any parse failure yields all zeros. -/
def parse_memory (memOutput : String) : ℚ × ℚ × ℚ × ℚ :=
  match (pySplit memOutput).mapM pyFloat with
  | some (t :: u :: f :: []) =>
      (t, u, f, if 0 < t then round2 (u / t * 100) else 0)
  | _ => (0, 0, 0, 0)

/-- The parse of one network line (lines 114-118): two floats, with (0,0)
substituted when the line does not parse. -/
def parse_net_line (line : String) : ℚ × ℚ :=
  match (pySplit (pyStrip line)).mapM pyFloat with
  | some (rx :: tx :: []) => (rx, tx)
  | _ => (0, 0)

/-- The network step (lines 109-120): a failed command is caught by the
bare `except` and replaced by three zero pairs. -/
def netStats (env : ShellEnv) : List (ℚ × ℚ) :=
  match env.netOut with
  | Except.error _ => [(0, 0), (0, 0), (0, 0)]
  | Except.ok lines => lines.map parse_net_line

/-- Model of Python `x.replace("G", "")`: remove every capital G. -/
def removeG (s : String) : String := ⟨s.data.filter (fun c => c ≠ 'G')⟩

/-- The parse of one disk line (lines 128-132): strip the G suffixes and read
exactly three floats; a malformed row yields `none` (the `continue`). -/
def parse_disk_line (line : String) : Option (ℚ × ℚ × ℚ) :=
  match (pySplit (pyStrip line)).mapM (fun x => pyFloat (removeG x)) with
  | some (t :: u :: f :: []) => some (t, u, f)
  | _ => none

/-- Parse a list of disk rows, skipping malformed rows entirely. -/
def parse_disk_rows (lines : List String) : List (ℚ × ℚ × ℚ) :=
  lines.filterMap parse_disk_line

/-- The disk step (lines 122-134): a failed command is caught by the bare
`except` and replaced by a single zero row. -/
def diskStats (env : ShellEnv) : List (ℚ × ℚ × ℚ) :=
  match env.diskOut with
  | Except.error _ => [(0, 0, 0)]
  | Except.ok lines => parse_disk_rows lines

/-- CPU aggregation (lines 139-142): guard an empty sample list with a
single 0.0, then average/max/min. Returns (avg, max, min). -/
def cpuAggregate (samples : List ℚ) : ℚ × ℚ × ℚ :=
  let s := if samples.isEmpty then [0] else samples
  (s.sum / (s.length : ℚ), listMax s, listMin s)

/-- Network aggregation (lines 144-150): guard an empty list with one zero
pair, then avg/max/min over the rx and tx columns independently. -/
def netAggregate (stats : List (ℚ × ℚ)) : (ℚ × ℚ × ℚ) × (ℚ × ℚ × ℚ) :=
  let s := if stats.isEmpty then [(0, 0)] else stats
  let rxs := s.map Prod.fst
  let txs := s.map Prod.snd
  ((rxs.sum / (s.length : ℚ), listMax rxs, listMin rxs),
   (txs.sum / (s.length : ℚ), listMax txs, listMin txs))

/-- Disk totals (lines 168-170): sum each column across the parsed rows. -/
def diskTotals (stats : List (ℚ × ℚ × ℚ)) : ℚ × ℚ × ℚ :=
  ((stats.map (fun r => r.1)).sum,
   (stats.map (fun r => r.2.1)).sum,
   (stats.map (fun r => r.2.2)).sum)

/-- The body of `get_server_stats` after a successful connection (lines
74-173): run the steps in order; an uncaught exception in any step
(modelled as `Except.error`) aborts the remaining steps. -/
def sampleBody (env : ShellEnv) (host now : String) :
    Except String SuccessMetrics := do
  let nout ← env.nprocOut
  let cpu_cores ← parseCoreCount nout
  let cpu_samples ← cpuLoop env
  let memRaw ← env.memOut
  let mem := parse_memory (pyStrip memRaw)
  let net := netStats env
  let disk := diskStats env
  let cpuAgg := cpuAggregate cpu_samples
  let netAgg := netAggregate net
  let dTot := diskTotals disk
  pure {
    host := host
    cpu_cores := cpu_cores
    cpu_usage_avg := round2 cpuAgg.1
    cpu_usage_max := round2 cpuAgg.2.1
    cpu_usage_min := round2 cpuAgg.2.2
    memory_total_gb := mem.1
    memory_used_gb := mem.2.1
    memory_free_gb := mem.2.2.1
    memory_usage := mem.2.2.2
    network_rx_kb_avg := round2 netAgg.1.1
    network_rx_kb_max := round2 netAgg.1.2.1
    network_rx_kb_min := round2 netAgg.1.2.2
    network_tx_kb_avg := round2 netAgg.2.1
    network_tx_kb_max := round2 netAgg.2.2.1
    network_tx_kb_min := round2 netAgg.2.2.2
    disk_total_gb := dTot.1
    disk_used_gb := dTot.2.1
    disk_free_gb := dTot.2.2
    timestamp := now }

/-- The result of one call to `get_server_stats`, instrumented with
whether the remote session was opened and whether it was closed before
returning (`ssh.close()` is reached only at line 136). -/
structure SampleOutcome where
  metrics : HostMetrics
  sessionOpened : Bool
  sessionClosed : Bool
deriving DecidableEq

/-- `get_server_stats` (lines 61-181): `conn` is the outcome of the
connection attempt (`ssh.connect`), `env` the command outcomes, `now` the
clock reading used for the timestamp.  A connection failure, or any
uncaught exception after it, is caught by the outer handler (lines
175-181) and turned into the failure variant; `ssh.close()` runs only when
every step at lines 74-134 completed. -/
def get_server_stats (conn : Except String Unit) (env : ShellEnv)
    (host now : String) : SampleOutcome :=
  match conn with
  | Except.error e => ⟨.failure host now e, false, false⟩
  | Except.ok _ =>
    match sampleBody env host now with
    | Except.error e => ⟨.failure host now e, true, false⟩
    | Except.ok m => ⟨.success m, true, true⟩

/-! ## Config loading and resolution (lines 24-59) -/

/-- `_load_config` (lines 33-40): `contents` is `some cfg` when the file
opened and parsed, `none` when either raised; the handler substitutes the
empty configuration. -/
def _load_config (contents : Option Config) : Config :=
  match contents with
  | some cfg => cfg
  | none => { default_credentials := ⟨none, none, none⟩, servers := [] }

/-- Resolve one server record against the fleet defaults (lines 51-56):
absent fields inherit the defaults; an absent `host` raises (KeyError),
modelled as the ConfigError. -/
def resolveServer (dUser dPass : String) (dPort : Int) (r : ServerRecord) :
    Except ConfigError HostDescriptor :=
  match r.host with
  | none => Except.error ConfigError.missingHost
  | some h =>
      Except.ok ⟨h, r.username.getD dUser, r.password.getD dPass, r.port.getD dPort⟩

/-- The loop of `_process_servers_config` over the server records. -/
def processList (dUser dPass : String) (dPort : Int) :
    List ServerRecord → Except ConfigError (List HostDescriptor)
  | [] => Except.ok []
  | r :: rest => do
    let d ← resolveServer dUser dPass dPort r
    let ds ← processList dUser dPass dPort rest
    pure (d :: ds)

/-- `_process_servers_config` (lines 42-59): read the defaults (username
and password defaulting to the empty string, port to 22) and resolve each
record in order. -/
def _process_servers_config (cfg : Config) : Except ConfigError (List HostDescriptor) :=
  processList (cfg.default_credentials.username.getD "")
    (cfg.default_credentials.password.getD "")
    (cfg.default_credentials.port.getD 22) cfg.servers

/-! ## Fleet collector (lines 183-194) -/

/-- `collect_all_servers_data`: call the sampler on each descriptor in
configuration order and append every result, success or failure. -/
def collect_all_servers_data (sample : HostDescriptor → HostMetrics) :
    List HostDescriptor → List HostMetrics
  | [] => []
  | s :: rest => sample s :: collect_all_servers_data sample rest

/-! ## Report exporter (lines 196-235) -/

/-- The characters of the pattern in `df.str.contains` at line 205. -/
def errPat : List Char := ['e', 'r', 'r', 'o', 'r']

/-- Substring containment on character lists. -/
def listContains (pat : List Char) : List Char → Bool
  | [] => pat.isEmpty
  | c :: cs => pat.isPrefixOf (c :: cs) || listContains pat cs

/-- Model of `status.str.contains("error")` for one status string. -/
def containsError (s : String) : Bool := listContains errPat s.data

/-- The branch condition of the exporter (line 205): the `status` column exists
(the result list is nonempty — both variants carry `status`) and the
status of some entry contains the text error. -/
def chooseReduced (results : List HostMetrics) : Bool :=
  !results.isEmpty && results.any (fun r => containsError (statusOf r))

/-- The shape of the exported table: the reduced three-column schema
(host, timestamp, status) or the full metrics schema. -/
inductive ExportTable where
  | reduced (rows : List (String × String × String))
  | full (rows : List HostMetrics)
deriving DecidableEq

/-- `export_to_excel` (lines 196-235), reduced to the schema decision and
the rows written: with any error status present, every row is projected to
(host, timestamp, status); otherwise the full records are written. -/
def export_to_excel (results : List HostMetrics) : ExportTable :=
  if chooseReduced results then
    ExportTable.reduced (results.map (fun r => (hostOf r, timestampOf r, statusOf r)))
  else
    ExportTable.full results

/-- The whole run of `main` (lines 240-245): load the config, resolve the
host list (a missing `host` raises before any host is contacted), collect
and export. -/
def runMonitor (contents : Option Config) (sample : HostDescriptor → HostMetrics) :
    Except ConfigError ExportTable := do
  let servers ← _process_servers_config (_load_config contents)
  pure (export_to_excel (collect_all_servers_data sample servers))

/-! ## Concrete inputs used when settling the claims -/

/-- A shell whose core-count command printed the unparseable text abc and
whose other commands behave normally. -/
def envAbc : ShellEnv :=
  { nprocOut := Except.ok "abc"
  , cpuPrimaryOut := fun _ => Except.ok "5"
  , cpuFallbackOut := fun _ => Except.ok ""
  , memOut := Except.ok "16 8 8"
  , netOut := Except.ok []
  , diskOut := Except.ok [] }

/-- A shell whose core-count command printed nothing. -/
def envEmptyNproc : ShellEnv := { envAbc with nprocOut := Except.ok "" }

/-- Identical to `envAbc` except for the memory command output, to show
that nothing after the core-count step influences the outcome there. -/
def envAbcAltMem : ShellEnv := { envAbc with memOut := Except.ok "0 0 0" }

/-- A shell whose three CPU utilization readings are all nonempty but
unparseable, so every repeat records 0.0. -/
def envCpuAllFail : ShellEnv :=
  { nprocOut := Except.ok "4"
  , cpuPrimaryOut := fun _ => Except.ok "x"
  , cpuFallbackOut := fun _ => Except.ok ""
  , memOut := Except.ok "16 8 8"
  , netOut := Except.ok []
  , diskOut := Except.ok [] }

/-- A concrete success record used to exercise the exporter. -/
def sampleA : SuccessMetrics :=
  { host := "hostA", cpu_cores := 4
  , cpu_usage_avg := 1, cpu_usage_max := 2, cpu_usage_min := 0
  , memory_total_gb := 16, memory_used_gb := 8, memory_free_gb := 8
  , memory_usage := 50
  , network_rx_kb_avg := 0, network_rx_kb_max := 0, network_rx_kb_min := 0
  , network_tx_kb_avg := 0, network_tx_kb_max := 0, network_tx_kb_min := 0
  , disk_total_gb := 30, disk_used_gb := 9, disk_free_gb := 21
  , timestamp := "tA" }

/-- The configuration of the C9 example: defaults admin/22 and a single
override record giving only the host. -/
def exampleConfig : Config :=
  ⟨⟨some "admin", none, some 22⟩, [⟨some "10.0.0.1", none, none, none⟩]⟩

/-- An otherwise-identical configuration whose one record omits host. -/
def badConfig : Config :=
  ⟨⟨some "admin", none, some 22⟩, [⟨none, none, none, none⟩]⟩

end Monitor

namespace Monitor

/-! ## Helper lemmas -/

theorem exceptBind_ok {ε α β : Type} (a : α) (f : α → Except ε β) :
    (Except.ok a >>= f) = f a := rfl

theorem exceptBind_error {ε α β : Type} (e : ε) (f : α → Except ε β) :
    ((Except.error e : Except ε α) >>= f) = Except.error e := rfl

theorem exceptPure {ε α : Type} (a : α) : (pure a : Except ε α) = Except.ok a := rfl

theorem le_foldl_max (l : List ℚ) (a : ℚ) : a ≤ l.foldl max a := by
  induction l generalizing a with
  | nil => exact le_refl a
  | cons x xs ih => exact le_trans (le_max_left a x) (ih (max a x))

theorem mem_le_foldl_max (l : List ℚ) (a b : ℚ) (hb : b ∈ l) : b ≤ l.foldl max a := by
  induction l generalizing a with
  | nil => cases hb
  | cons x xs ih =>
    rcases List.mem_cons.mp hb with h | h
    · subst h
      exact le_trans (le_max_right a b) (le_foldl_max xs (max a b))
    · exact ih (max a x) h

theorem mem_le_listMax (l : List ℚ) (b : ℚ) (hb : b ∈ l) : b ≤ listMax l := by
  cases l with
  | nil => cases hb
  | cons x xs =>
    rcases List.mem_cons.mp hb with h | h
    · subst h; exact le_foldl_max xs b
    · exact mem_le_foldl_max xs x b h

theorem foldl_min_le (l : List ℚ) (a : ℚ) : l.foldl min a ≤ a := by
  induction l generalizing a with
  | nil => exact le_refl a
  | cons x xs ih => exact le_trans (ih (min a x)) (min_le_left a x)

theorem foldl_min_le_mem (l : List ℚ) (a b : ℚ) (hb : b ∈ l) : l.foldl min a ≤ b := by
  induction l generalizing a with
  | nil => cases hb
  | cons x xs ih =>
    rcases List.mem_cons.mp hb with h | h
    · subst h
      exact le_trans (foldl_min_le xs (min a b)) (min_le_right a b)
    · exact ih (min a x) h

theorem listMin_le_mem (l : List ℚ) (b : ℚ) (hb : b ∈ l) : listMin l ≤ b := by
  cases l with
  | nil => cases hb
  | cons x xs =>
    rcases List.mem_cons.mp hb with h | h
    · subst h; exact foldl_min_le xs b
    · exact foldl_min_le_mem xs x b h

theorem length_pos_rat (l : List ℚ) (hl : l ≠ []) : (0 : ℚ) < l.length := by
  have := List.length_pos.mpr hl
  exact_mod_cast this

theorem avg_le_listMax (l : List ℚ) (hl : l ≠ []) : l.sum / (l.length : ℚ) ≤ listMax l := by
  rw [div_le_iff₀ (length_pos_rat l hl)]
  have h := List.sum_le_card_nsmul l (listMax l) (fun x hx => mem_le_listMax l x hx)
  rw [nsmul_eq_mul] at h
  rw [mul_comm]
  exact h

theorem listMin_le_avg (l : List ℚ) (hl : l ≠ []) : listMin l ≤ l.sum / (l.length : ℚ) := by
  rw [le_div_iff₀ (length_pos_rat l hl)]
  have h := List.card_nsmul_le_sum l (listMin l) (fun x hx => listMin_le_mem l x hx)
  rw [nsmul_eq_mul] at h
  rw [mul_comm]
  exact h

theorem cpuAggregate_of_ne_nil (l : List ℚ) (hl : l ≠ []) :
    cpuAggregate l = (l.sum / (l.length : ℚ), listMax l, listMin l) := by
  have he : l.isEmpty = false := by
    cases l with
    | nil => exact absurd rfl hl
    | cons x xs => rfl
  simp [cpuAggregate, he]

theorem cpuLoop_ok_shape (env : ShellEnv) (samples : List ℚ)
    (h : cpuLoop env = Except.ok samples) :
    ∃ s0 s1 s2, cpuSample (env.cpuPrimaryOut 0) (env.cpuFallbackOut 0) = Except.ok s0
      ∧ cpuSample (env.cpuPrimaryOut 1) (env.cpuFallbackOut 1) = Except.ok s1
      ∧ cpuSample (env.cpuPrimaryOut 2) (env.cpuFallbackOut 2) = Except.ok s2
      ∧ samples = [s0, s1, s2] := by
  unfold cpuLoop at h
  cases h0 : cpuSample (env.cpuPrimaryOut 0) (env.cpuFallbackOut 0) with
  | error e => rw [h0, exceptBind_error] at h; cases h
  | ok s0 =>
    rw [h0, exceptBind_ok] at h
    cases h1 : cpuSample (env.cpuPrimaryOut 1) (env.cpuFallbackOut 1) with
    | error e => rw [h1, exceptBind_error] at h; cases h
    | ok s1 =>
      rw [h1, exceptBind_ok] at h
      cases h2 : cpuSample (env.cpuPrimaryOut 2) (env.cpuFallbackOut 2) with
      | error e => rw [h2, exceptBind_error] at h; cases h
      | ok s2 =>
        rw [h2, exceptBind_ok, exceptPure] at h
        exact ⟨s0, s1, s2, rfl, rfl, rfl, (Except.ok.inj h).symm⟩

theorem cpuSample_parse_error (out : String) (fb : Except String String)
    (hne : pyStrip out ≠ "") (hnone : pyFloat (pyStrip out) = none) :
    cpuSample (Except.ok out) fb = Except.ok 0 := by
  unfold cpuSample
  rw [exceptBind_ok, if_pos hne, hnone]
  rfl

theorem containsError_statusOf (r : HostMetrics) :
    containsError (statusOf r) = isFailure r := by
  cases r with
  | success m => rfl
  | failure h t e => rfl

theorem collect_length (sample : HostDescriptor → HostMetrics) (l : List HostDescriptor) :
    (collect_all_servers_data sample l).length = l.length := by
  induction l with
  | nil => rfl
  | cons x xs ih => simp [collect_all_servers_data, ih]

theorem collect_getElem? (sample : HostDescriptor → HostMetrics) (l : List HostDescriptor)
    (i : ℕ) : (collect_all_servers_data sample l)[i]? = (l[i]?).map sample := by
  induction l generalizing i with
  | nil => rfl
  | cons x xs ih =>
    cases i with
    | zero => simp [collect_all_servers_data]
    | succ n => simpa [collect_all_servers_data] using ih n

theorem collect_append (sample : HostDescriptor → HostMetrics)
    (l1 l2 : List HostDescriptor) :
    collect_all_servers_data sample (l1 ++ l2)
      = collect_all_servers_data sample l1 ++ collect_all_servers_data sample l2 := by
  induction l1 with
  | nil => rfl
  | cons x xs ih => simp [collect_all_servers_data, ih]

theorem processList_ok_length (dU dP : String) (dPort : Int) (l : List ServerRecord)
    (ds : List HostDescriptor) (h : processList dU dP dPort l = Except.ok ds) :
    ds.length = l.length := by
  induction l generalizing ds with
  | nil =>
    cases h
    rfl
  | cons r rest ih =>
    unfold processList at h
    cases hr : resolveServer dU dP dPort r with
    | error e => rw [hr, exceptBind_error] at h; cases h
    | ok d =>
      rw [hr, exceptBind_ok] at h
      cases hrest : processList dU dP dPort rest with
      | error e => rw [hrest, exceptBind_error] at h; cases h
      | ok ds2 =>
        rw [hrest, exceptBind_ok, exceptPure] at h
        cases h
        simp [ih ds2 hrest]

theorem processList_ok_get (dU dP : String) (dPort : Int) (l : List ServerRecord)
    (ds : List HostDescriptor) (h : processList dU dP dPort l = Except.ok ds) (i : ℕ) :
    ds[i]? = (l[i]?).bind (fun r => (resolveServer dU dP dPort r).toOption) := by
  induction l generalizing ds i with
  | nil =>
    cases h
    rfl
  | cons r rest ih =>
    unfold processList at h
    cases hr : resolveServer dU dP dPort r with
    | error e => rw [hr, exceptBind_error] at h; cases h
    | ok d =>
      rw [hr, exceptBind_ok] at h
      cases hrest : processList dU dP dPort rest with
      | error e => rw [hrest, exceptBind_error] at h; cases h
      | ok ds2 =>
        rw [hrest, exceptBind_ok, exceptPure] at h
        cases h
        cases i with
        | zero => simp [hr, Except.toOption]
        | succ n => simpa using ih ds2 hrest n

theorem processList_missing (dU dP : String) (dPort : Int) (l : List ServerRecord)
    (r : ServerRecord) (hr : r ∈ l) (hh : r.host = none) :
    processList dU dP dPort l = Except.error ConfigError.missingHost := by
  induction l with
  | nil => cases hr
  | cons x rest ih =>
    rcases List.mem_cons.mp hr with h | h
    · subst h
      unfold processList resolveServer
      rw [hh, exceptBind_error]
    · unfold processList
      cases hx : resolveServer dU dP dPort x with
      | error e =>
        cases e
        rw [exceptBind_error]
      | ok d =>
        rw [exceptBind_ok, ih h, exceptBind_error]

end Monitor

namespace Monitor

/-! ## Claims -/

/-- Claim C1: for every configured host count N ≥ 0, the fleet collection
loop appends exactly one HostMetrics record per configured host, whatever
variant the sampler returns, so the report has length N and entry i is the
sampling result for host i of the configuration order. -/
theorem fleet_report_C1 (sample : HostDescriptor → HostMetrics)
    (servers : List HostDescriptor) :
    (collect_all_servers_data sample servers).length = servers.length
    ∧ ∀ i : ℕ, (collect_all_servers_data sample servers)[i]? = (servers[i]?).map sample :=
  ⟨collect_length sample servers, collect_getElem? sample servers⟩

/-- Claim C2: a FleetReport with at least one failure-variant entry is
exported in the reduced three-column schema for all entries, successes
included; a report with no failure entry is exported in the full schema. -/
theorem export_schema_C2 (results : List HostMetrics) :
    ((∃ r ∈ results, isFailure r = true) →
      export_to_excel results
        = ExportTable.reduced (results.map (fun r => (hostOf r, timestampOf r, statusOf r))))
    ∧ ((∀ r ∈ results, isFailure r = false) →
      export_to_excel results = ExportTable.full results) := by
  constructor
  · rintro ⟨r, hr, hf⟩
    have hne : results.isEmpty = false := by
      cases results with
      | nil => cases hr
      | cons x xs => rfl
    have hany : results.any (fun r => containsError (statusOf r)) = true :=
      List.any_eq_true.mpr ⟨r, hr, by rw [containsError_statusOf]; exact hf⟩
    simp [export_to_excel, chooseReduced, hne, hany]
  · intro hall
    have hany : results.any (fun r => containsError (statusOf r)) = false :=
      List.any_eq_false.mpr (fun r hr => by
        rw [containsError_statusOf, hall r hr]
        exact fun hcontra => nomatch hcontra)
    simp [export_to_excel, chooseReduced, hany]

/-- Witness for C2: with one success (hostA) and one failure (hostB) the
reduced schema is used for both rows; with only the success the full
schema is used. -/
theorem export_schema_C2_witness :
    export_to_excel [HostMetrics.success sampleA, HostMetrics.failure "hostB" "tB" "boom"]
      = ExportTable.reduced [("hostA", "tA", "success"), ("hostB", "tB", "error: boom")]
    ∧ export_to_excel [HostMetrics.success sampleA]
      = ExportTable.full [HostMetrics.success sampleA] :=
  ⟨((export_schema_C2 [HostMetrics.success sampleA,
        HostMetrics.failure "hostB" "tB" "boom"]).1
      ⟨HostMetrics.failure "hostB" "tB" "boom", by simp, rfl⟩).trans rfl,
   (export_schema_C2 [HostMetrics.success sampleA]).2
      (by intro r hr; rw [List.mem_singleton.mp hr]; rfl)⟩

/-- Claim C3: a failed connection attempt returns the failure variant
carrying the host name, the error text (reported as status "error: " plus
the text) and the current timestamp; no sampling step runs (the outcome is
the same for any shell behaviour), and the fleet loop still processes
every other host. -/
theorem connection_failure_C3 (e : String) (env envAlt : ShellEnv) (host now : String)
    (sample : HostDescriptor → HostMetrics) (pre post : List HostDescriptor)
    (d : HostDescriptor) :
    get_server_stats (Except.error e) env host now
      = ⟨HostMetrics.failure host now e, false, false⟩
    ∧ get_server_stats (Except.error e) env host now
      = get_server_stats (Except.error e) envAlt host now
    ∧ statusOf (HostMetrics.failure host now e) = "error: " ++ e
    ∧ collect_all_servers_data sample (pre ++ d :: post)
      = collect_all_servers_data sample pre
          ++ sample d :: collect_all_servers_data sample post :=
  ⟨rfl, rfl, rfl, collect_append sample pre (d :: post)⟩

/-- Counterexample to C4 as stated: with the core-count output abc (non-
empty, unparseable as an integer) the sampler does not default the core
count to 1 and proceed — it returns the failure variant, and no later
sampling step runs (changing the memory command output changes nothing). -/
theorem core_count_C4_counterexample :
    (get_server_stats (Except.ok ()) envAbc "h1" "t1").metrics
      = HostMetrics.failure "h1" "t1" "invalid literal for int() with base 10: abc"
    ∧ isSuccess (get_server_stats (Except.ok ()) envAbc "h1" "t1").metrics = false
    ∧ get_server_stats (Except.ok ()) envAbc "h1" "t1"
      = get_server_stats (Except.ok ()) envAbcAltMem "h1" "t1" :=
  ⟨rfl, rfl, rfl⟩

/-- Claim C4 as amended: the core-count step defaults to 1 only when the
stripped output is empty; a non-empty output unparseable as an integer
raises, and that error escapes the sampler as the whole-host failure
variant (with the session left open). -/
theorem core_count_C4_amended (env : ShellEnv) (host now out : String)
    (hn : env.nprocOut = Except.ok out) :
    (pyStrip out = "" → parseCoreCount out = Except.ok 1)
    ∧ (pyStrip out ≠ "" → pyInt (pyStrip out) = none →
        parseCoreCount out
          = Except.error ("invalid literal for int() with base 10: " ++ pyStrip out))
    ∧ (∀ e, parseCoreCount out = Except.error e →
        get_server_stats (Except.ok ()) env host now
          = ⟨HostMetrics.failure host now e, true, false⟩) := by
  refine ⟨?_, ?_, ?_⟩
  · intro h
    simp [parseCoreCount, h]
  · intro hne hnone
    simp [parseCoreCount, hne, hnone]
  · intro e he
    have hb : sampleBody env host now = Except.error e := by
      unfold sampleBody
      rw [hn, exceptBind_ok, he, exceptBind_error]
    unfold get_server_stats
    rw [hb]

/-- Witness for C4 as amended: an empty output yields core count 1; the
output abc raises and the sampler returns the failure variant without
closing the session. -/
theorem core_count_C4_amended_witness :
    parseCoreCount "" = Except.ok 1
    ∧ parseCoreCount "abc"
        = Except.error ("invalid literal for int() with base 10: " ++ pyStrip "abc")
    ∧ get_server_stats (Except.ok ()) envAbc "h1" "t1"
        = ⟨HostMetrics.failure "h1" "t1" "invalid literal for int() with base 10: abc",
            true, false⟩ :=
  ⟨(core_count_C4_amended envEmptyNproc "h" "t" "" rfl).1 rfl,
   (core_count_C4_amended envAbc "h1" "t1" "abc" rfl).2.1 (by decide) rfl,
   (core_count_C4_amended envAbc "h1" "t1" "abc" rfl).2.2
     "invalid literal for int() with base 10: abc" rfl⟩

/-- Counterexample to C5 as stated: with the core-count output abc the
session is opened but the sampler returns without closing it. -/
theorem session_close_C5_counterexample :
    (get_server_stats (Except.ok ()) envAbc "h1" "t1").sessionOpened = true
    ∧ (get_server_stats (Except.ok ()) envAbc "h1" "t1").sessionClosed = false :=
  ⟨rfl, rfl⟩

/-- Claim C5 as amended: the session is closed before the sampler returns
exactly on the success exit path; on a connection failure it was never
opened, and on any failure after the session was opened the sampler
returns the failure variant without closing it. -/
theorem session_close_C5_amended (conn : Except String Unit) (env : ShellEnv)
    (host now : String) :
    (get_server_stats conn env host now).sessionClosed
      = isSuccess (get_server_stats conn env host now).metrics
    ∧ ((get_server_stats conn env host now).sessionOpened = true ↔ conn = Except.ok ()) := by
  cases conn with
  | error e => exact ⟨rfl, by simp [get_server_stats]⟩
  | ok u =>
    cases u
    unfold get_server_stats
    cases h : sampleBody env host now with
    | error e => simp [isSuccess]
    | ok m => simp [isSuccess]

/-- Claim C6: an execution of the CPU sampling loop that completes always
yields exactly 3 samples; a parse error on a repeat records 0.0 for that
repeat only; the aggregates of the sample set satisfy min ≤ avg ≤ max
(the sum is divided by the length 3, never by zero); and when all three
repeats fail to parse, avg, max and min are all 0. -/
theorem cpu_sampleset_C6 (env : ShellEnv) (samples : List ℚ)
    (h : cpuLoop env = Except.ok samples) :
    samples.length = 3
    ∧ (cpuAggregate samples).2.2 ≤ (cpuAggregate samples).1
    ∧ (cpuAggregate samples).1 ≤ (cpuAggregate samples).2.1
    ∧ (∀ out fb, pyStrip out ≠ "" → pyFloat (pyStrip out) = none →
        cpuSample (Except.ok out) fb = Except.ok 0)
    ∧ ((∀ i : Fin 3, ∃ oi, env.cpuPrimaryOut i = Except.ok oi ∧ pyStrip oi ≠ ""
          ∧ pyFloat (pyStrip oi) = none) →
        samples = [0, 0, 0] ∧ cpuAggregate samples = (0, 0, 0)) := by
  obtain ⟨s0, s1, s2, h0, h1, h2, hs⟩ := cpuLoop_ok_shape env samples h
  have hlen : samples.length = 3 := by rw [hs]; rfl
  have hnil : samples ≠ [] := by rw [hs]; exact fun hcontra => nomatch hcontra
  have hagg := cpuAggregate_of_ne_nil samples hnil
  refine ⟨hlen, ?_, ?_, cpuSample_parse_error, ?_⟩
  · rw [hagg]
    exact listMin_le_avg samples hnil
  · rw [hagg]
    exact avg_le_listMax samples hnil
  · intro hall
    obtain ⟨o0, ho0, hne0, hf0⟩ := hall 0
    obtain ⟨o1, ho1, hne1, hf1⟩ := hall 1
    obtain ⟨o2, ho2, hne2, hf2⟩ := hall 2
    have e0 := cpuSample_parse_error o0 (env.cpuFallbackOut 0) hne0 hf0
    have e1 := cpuSample_parse_error o1 (env.cpuFallbackOut 1) hne1 hf1
    have e2 := cpuSample_parse_error o2 (env.cpuFallbackOut 2) hne2 hf2
    rw [← ho0] at e0; rw [← ho1] at e1; rw [← ho2] at e2
    have hs0 : s0 = 0 := (Except.ok.inj (e0.symm.trans h0)).symm
    have hs1 : s1 = 0 := (Except.ok.inj (e1.symm.trans h1)).symm
    have hs2 : s2 = 0 := (Except.ok.inj (e2.symm.trans h2)).symm
    have hz : samples = [0, 0, 0] := by rw [hs, hs0, hs1, hs2]
    refine ⟨hz, ?_⟩
    rw [hz]
    norm_num [cpuAggregate, listMax, listMin]

/-- Witness for C6: a shell whose three CPU readings are all unparseable
completes the loop with the sample set [0,0,0], one repeat substitutes 0.0
on a parse error, and the aggregates are all 0. -/
theorem cpu_sampleset_C6_witness :
    cpuSample (Except.ok "x") (Except.ok "") = Except.ok 0
    ∧ cpuAggregate [0, 0, 0] = (0, 0, 0) :=
  ⟨(cpu_sampleset_C6 envCpuAllFail [0, 0, 0] rfl).2.2.2.1 "x" (Except.ok "")
      (by decide) rfl,
   ((cpu_sampleset_C6 envCpuAllFail [0, 0, 0] rfl).2.2.2.2
      (fun _ => ⟨"x", rfl, by decide, rfl⟩)).2⟩

/-- Claim C7: a memory output of 16 8 8 gives total/used/free 16/8/8 and
usage exactly 50; 0 0 0 gives all zeros with no division fault; and any
output whose fields do not parse gives all zeros. -/
theorem memory_parse_C7 :
    parse_memory "16 8 8" = (16, 8, 8, 50)
    ∧ parse_memory "0 0 0" = (0, 0, 0, 0)
    ∧ ∀ s, (pySplit s).mapM pyFloat = none → parse_memory s = (0, 0, 0, 0) := by
  refine ⟨?_, ?_, ?_⟩
  · have h : parse_memory "16 8 8"
        = (((16:ℕ):ℚ), ((8:ℕ):ℚ), ((8:ℕ):ℚ),
            if (0:ℚ) < ((16:ℕ):ℚ) then round2 (((8:ℕ):ℚ) / ((16:ℕ):ℚ) * 100) else 0) := rfl
    rw [h]
    norm_num [round2, roundHalfEven, Rat.floor]
  · have h : parse_memory "0 0 0"
        = (((0:ℕ):ℚ), ((0:ℕ):ℚ), ((0:ℕ):ℚ),
            if (0:ℚ) < ((0:ℕ):ℚ) then round2 (((0:ℕ):ℚ) / ((0:ℕ):ℚ) * 100) else 0) := rfl
    rw [h]
    norm_num
  · intro s hs
    unfold parse_memory
    rw [hs]

/-- Witness for C7: the unparseable output garbage yields all zeros. -/
theorem memory_parse_C7_witness : parse_memory "garbage" = (0, 0, 0, 0) :=
  memory_parse_C7.2.2 "garbage" rfl

/-- Claim C8: disk parsing drops each malformed row entirely and sums the
columns of the remaining rows; on the three quoted rows the middle row is
excluded and the totals are 30/9/21. -/
theorem disk_parse_C8 :
    parse_disk_rows ["10 4 6", "garbage", "20 5 15"] = [(10, 4, 6), (20, 5, 15)]
    ∧ diskTotals (parse_disk_rows ["10 4 6", "garbage", "20 5 15"]) = (30, 9, 21)
    ∧ ∀ pre post bad, parse_disk_line bad = none →
        parse_disk_rows (pre ++ bad :: post)
          = parse_disk_rows pre ++ parse_disk_rows post := by
  refine ⟨rfl, ?_, ?_⟩
  · have h : parse_disk_rows ["10 4 6", "garbage", "20 5 15"]
        = [(10, 4, 6), (20, 5, 15)] := rfl
    rw [h]
    norm_num [diskTotals]
  · intro pre post bad hbad
    unfold parse_disk_rows
    rw [List.filterMap_append, List.filterMap_cons_none hbad]

/-- Witness for C8: skipping the malformed row garbage splits the parse
around it. -/
theorem disk_parse_C8_witness :
    parse_disk_rows (["10 4 6"] ++ "garbage" :: ["20 5 15"])
      = parse_disk_rows ["10 4 6"] ++ parse_disk_rows ["20 5 15"] :=
  disk_parse_C8.2.2 ["10 4 6"] ["20 5 15"] "garbage" rfl

/-- Claim C9: config resolution maps record i to descriptor i, absent
fields inheriting the fleet defaults (port defaulting to 22 when the
defaults omit it); the quoted example resolves as stated; and a record
that omits host makes the whole resolution fail with the ConfigError, so
the run aborts before any host is sampled. -/
theorem config_resolution_C9 :
    _process_servers_config exampleConfig
      = Except.ok [⟨"10.0.0.1", "admin", "", 22⟩]
    ∧ _process_servers_config ⟨⟨some "admin", none, none⟩, [⟨some "10.0.0.1", none, none, none⟩]⟩
      = Except.ok [⟨"10.0.0.1", "admin", "", 22⟩]
    ∧ (∀ cfg ds, _process_servers_config cfg = Except.ok ds →
        ds.length = cfg.servers.length)
    ∧ (∀ cfg ds, _process_servers_config cfg = Except.ok ds → ∀ i : ℕ,
        ds[i]? = (cfg.servers[i]?).bind (fun r =>
          (resolveServer (cfg.default_credentials.username.getD "")
            (cfg.default_credentials.password.getD "")
            (cfg.default_credentials.port.getD 22) r).toOption))
    ∧ (∀ cfg r, r ∈ cfg.servers → r.host = none →
        _process_servers_config cfg = Except.error ConfigError.missingHost)
    ∧ (∀ cfg sample, _process_servers_config cfg = Except.error ConfigError.missingHost →
        runMonitor (some cfg) sample = Except.error ConfigError.missingHost) := by
  refine ⟨rfl, rfl, ?_, ?_, ?_, ?_⟩
  · intro cfg ds h
    exact processList_ok_length _ _ _ cfg.servers ds h
  · intro cfg ds h i
    exact processList_ok_get _ _ _ cfg.servers ds h i
  · intro cfg r hr hh
    exact processList_missing _ _ _ cfg.servers r hr hh
  · intro cfg sample h
    unfold runMonitor
    have hl : _load_config (some cfg) = cfg := rfl
    rw [hl, h, exceptBind_error]

/-- Witness for C9: the example config resolves to one descriptor (same
count as records); a config whose record omits host resolves to the
ConfigError and the whole run returns it without sampling. -/
theorem config_resolution_C9_witness :
    ([(⟨"10.0.0.1", "admin", "", 22⟩ : HostDescriptor)]).length
      = exampleConfig.servers.length
    ∧ _process_servers_config badConfig = Except.error ConfigError.missingHost
    ∧ runMonitor (some badConfig) (fun _ => HostMetrics.failure "h" "t" "e")
      = Except.error ConfigError.missingHost :=
  ⟨config_resolution_C9.2.2.1 exampleConfig [⟨"10.0.0.1", "admin", "", 22⟩] rfl,
   config_resolution_C9.2.2.2.2.1 badConfig ⟨none, none, none, none⟩
     (List.mem_singleton.mpr rfl) rfl,
   config_resolution_C9.2.2.2.2.2 badConfig (fun _ => HostMetrics.failure "h" "t" "e")
     (config_resolution_C9.2.2.2.2.1 badConfig ⟨none, none, none, none⟩
       (List.mem_singleton.mpr rfl) rfl)⟩

/-- Claim C10: when the config file cannot be opened or parsed the loader
substitutes the empty configuration, the resolved host list is empty, and
a collection-and-export run completes with an empty report. -/
theorem config_failure_C10 (sample : HostDescriptor → HostMetrics) :
    _load_config none = ⟨⟨none, none, none⟩, []⟩
    ∧ _process_servers_config (_load_config none) = Except.ok []
    ∧ collect_all_servers_data sample [] = []
    ∧ runMonitor none sample = Except.ok (ExportTable.full []) :=
  ⟨rfl, rfl, rfl, rfl⟩

end Monitor
